import Mathlib

/-!
Verification development for the role-based family conversation orchestrator
(`role_system.py`, `family_agent.py`, `enhanced_simultaneous_chat.py`,
`simultaneous_chat.py`).  The Python code is shallowly embedded: pure methods
become Lean functions, the mutable manager state becomes an explicit record
threaded through the operations, calls to the external generation service
(`openai.ChatCompletion.create`) and to `json.loads` become oracle parameters
bundled in a `GenService` record, and Python exceptions become `Except`
results.  File-system persistence (`_save_chat_data`, `_save_family_configuration`)
and wall-clock timestamps are external effects: saving is omitted (it does not
influence any in-memory state) and `datetime.now().isoformat()` is passed in as
an explicit `now : String` argument.
-/

/-- Dynamic JSON values, the result type of `json.loads`. -/
inductive Json where
  | str : String → Json
  | num : Int → Json
  | jbool : Bool → Json
  | null : Json
  | arr : List Json → Json
  | obj : List (String × Json) → Json

/-- `dict.get(key, default)` on a JSON object's key/value list. -/
def jsonGetD (kvs : List (String × Json)) (k : String) (d : Json) : Json :=
  match kvs.find? (fun kv => kv.1 == k) with
  | some kv => kv.2
  | none => d

/-- The `FamilyRole` enumeration of `role_system.py` (six members; the
`family_agent.py` revision uses the first four). -/
inductive FamilyRole where
  | partner | child | grandfather | grandmother | sibling | pet
deriving DecidableEq

/-- The `.value` string of a `FamilyRole` member. -/
def roleValue : FamilyRole → String
  | .partner => "partner"
  | .child => "child"
  | .grandfather => "grandfather"
  | .grandmother => "grandmother"
  | .sibling => "sibling"
  | .pet => "pet"

/-- The `speaking_style` dictionaries (fixed shape everywhere in the source). -/
structure SpeakingStyle where
  tone : String
  vocabulary : String
  emotions : List String
deriving DecidableEq

/-- The `relationship_dynamics` dictionaries of the role templates. -/
structure RelationshipDynamics where
  primary_relationship : String
  interaction_style : String
  support_role : String
deriving DecidableEq

/-- `RoleTemplate` dataclass of `role_system.py`. -/
structure RoleTemplate where
  role : FamilyRole
  name : String
  age_range : Nat × Nat
  personality_traits : List String
  speaking_style : SpeakingStyle
  interests : List String
  values : List String
  relationship_dynamics : RelationshipDynamics
  default_emotions : List String
deriving DecidableEq

/-- A profile-derived parameter dictionary (`partner_info`, an entry of
`children_info`, or the `custom_params` of a role).  Python passes plain
dicts around; every key that any reachable code path reads is modelled as an
optional field (a missing key is `none`). -/
structure ParamsDict where
  name : Option String := none
  age : Option Nat := none
  gender : Option String := none
  personality : Option Json := none
  age_range : Option (Nat × Nat) := none
  personality_traits : Option (List String) := none
  speaking_style : Option SpeakingStyle := none
  interests : Option (List String) := none
  values : Option (List String) := none
  relationship_dynamics : Option RelationshipDynamics := none
  default_emotions : Option (List String) := none

/-- The user profile dictionary.  `partner_info = none` models both a missing
key and an empty (hence falsy) dict, the two cases the guards treat alike. -/
structure Profile where
  age : Option Nat := none
  gender : Option String := none
  partner_info : Option ParamsDict := none
  children_info : List ParamsDict := []

/-- `RoleFactory` partner template. -/
def partnerTemplate : RoleTemplate where
  role := .partner
  name := "パートナー"
  age_range := (20, 50)
  personality_traits := ["愛情深い", "支え合い", "理解力", "協調性"]
  speaking_style := { tone := "温かみのある", vocabulary := "親しみやすい",
                      emotions := ["愛情", "支え合い", "理解"] }
  interests := ["家族時間", "趣味", "旅行", "料理"]
  values := ["家族の絆", "健康", "成長", "愛情"]
  relationship_dynamics := { primary_relationship := "パートナー",
                             interaction_style := "対等", support_role := "相互支援" }
  default_emotions := ["loving", "supportive", "understanding"]

/-- `RoleFactory` child template. -/
def childTemplate : RoleTemplate where
  role := .child
  name := "子ども"
  age_range := (0, 18)
  personality_traits := ["好奇心旺盛", "純真", "成長中", "家族思い"]
  speaking_style := { tone := "年齢に応じた", vocabulary := "年齢相応",
                      emotions := ["純真", "喜び", "驚き", "成長"] }
  interests := ["遊び", "学習", "友達", "家族"]
  values := ["楽しさ", "好奇心", "家族", "友達"]
  relationship_dynamics := { primary_relationship := "子ども",
                             interaction_style := "親子", support_role := "愛情と教育" }
  default_emotions := ["happy", "curious", "excited"]

/-- `RoleFactory` grandfather template. -/
def grandfatherTemplate : RoleTemplate where
  role := .grandfather
  name := "祖父"
  age_range := (60, 80)
  personality_traits := ["穏やか", "経験豊富", "家族思い", "知恵深い"]
  speaking_style := { tone := "落ち着いた", vocabulary := "丁寧語",
                      emotions := ["慈愛", "安心感", "誇り"] }
  interests := ["園芸", "将棋", "散歩", "読書"]
  values := ["伝統", "家族の絆", "知恵", "健康"]
  relationship_dynamics := { primary_relationship := "祖父",
                             interaction_style := "指導的", support_role := "知恵と経験の提供" }
  default_emotions := ["wise", "caring", "proud"]

/-- `RoleFactory` grandmother template. -/
def grandmotherTemplate : RoleTemplate where
  role := .grandmother
  name := "祖母"
  age_range := (55, 75)
  personality_traits := ["優しい", "料理好き", "孫思い", "愛情深い"]
  speaking_style := { tone := "温かみのある", vocabulary := "優しい言葉",
                      emotions := ["愛情", "心配", "喜び"] }
  interests := ["料理", "裁縫", "お花", "孫との時間"]
  values := ["家族の健康", "伝統", "愛情", "絆"]
  relationship_dynamics := { primary_relationship := "祖母",
                             interaction_style := "慈愛", support_role := "愛情とケア" }
  default_emotions := ["loving", "caring", "nurturing"]

/-- The template catalog built by the role factory at construction time:
only partner, child, grandfather and grandmother are registered.  A `none`
result corresponds to the `KeyError` of `self.role_templates[role]`, the
spec's `InvalidRoleError`. -/
def roleTemplates : FamilyRole → Option RoleTemplate
  | .partner => some partnerTemplate
  | .child => some childTemplate
  | .grandfather => some grandfatherTemplate
  | .grandmother => some grandmotherTemplate
  | .sibling => none
  | .pet => none

/-- `RoleFactory._apply_custom_params`: every template key is looked up in the
custom-params dict with the template value as default. -/
def applyCustomParams (t : RoleTemplate) (ps : ParamsDict) : RoleTemplate where
  role := t.role
  name := ps.name.getD t.name
  age_range := ps.age_range.getD t.age_range
  personality_traits := ps.personality_traits.getD t.personality_traits
  speaking_style := ps.speaking_style.getD t.speaking_style
  interests := ps.interests.getD t.interests
  values := ps.values.getD t.values
  relationship_dynamics := ps.relationship_dynamics.getD t.relationship_dynamics
  default_emotions := ps.default_emotions.getD t.default_emotions

/-- One entry of the list built by
`FamilyConfigurationManager._determine_family_structure`: a dict with a
`"role"` key and an optional `"custom_params"` key. -/
structure RoleConfig where
  role : FamilyRole
  custom_params : Option ParamsDict := none

/-- `FamilyConfigurationManager._determine_family_structure` (`role_system.py`).
Partner is appended iff `partner_info` is present (truthy), one child entry per
`children_info` element carrying that dict as `custom_params`, and both
grandparents are appended iff `user_profile.get("age", 30) > 25`. -/
def determineFamilyStructure (p : Profile) : List RoleConfig :=
  (match p.partner_info with
   | some pi => [{ role := .partner, custom_params := some pi }]
   | none => [])
  ++ p.children_info.map (fun c => { role := .child, custom_params := some c })
  ++ (if p.age.getD 30 > 25 then
        [{ role := .grandfather }, { role := .grandmother }]
      else [])

/-- The result dict of `FamilyAgent._determine_family_structure`
(`family_agent.py` revision). -/
structure FamilyStructureFA where
  has_partner : Bool
  children : List ParamsDict
  has_grandparents : Bool

/-- `FamilyAgent._determine_family_structure`: `has_partner` is
`partner_info is not None`, each child entry is normalised to its
age/gender/personality with defaults, grandparents iff age (default 30)
exceeds 25. -/
def determineFamilyStructureFA (p : Profile) : FamilyStructureFA where
  has_partner := p.partner_info.isSome
  children := p.children_info.map (fun c =>
    { age := some (c.age.getD 5),
      gender := some (c.gender.getD "unknown"),
      personality := some (c.personality.getD (Json.obj [])) })
  has_grandparents := decide (p.age.getD 30 > 25)

/-- Claim C1: for every user profile the derived family structure is
deterministic and total: it contains a partner role iff the profile has
partner info, exactly one child role per entry of the children list carrying
that entry as overrides, and both grandfather and grandmother iff the
profile's age exceeds 25; calling the derivation twice on the same profile
yields the identical list.  Both revisions of the derivation are covered. -/
theorem determine_family_structure_correct (p : Profile) :
    determineFamilyStructure p = determineFamilyStructure p
    ∧ ((∃ rc ∈ determineFamilyStructure p, rc.role = FamilyRole.partner)
        ↔ p.partner_info.isSome)
    ∧ (determineFamilyStructure p).filter (fun rc => rc.role == FamilyRole.child)
        = p.children_info.map (fun c => { role := .child, custom_params := some c })
    ∧ (((∃ rc ∈ determineFamilyStructure p, rc.role = FamilyRole.grandfather)
        ∧ (∃ rc ∈ determineFamilyStructure p, rc.role = FamilyRole.grandmother))
        ↔ p.age.getD 30 > 25)
    ∧ determineFamilyStructureFA p = determineFamilyStructureFA p
    ∧ ((determineFamilyStructureFA p).has_partner = p.partner_info.isSome)
    ∧ (determineFamilyStructureFA p).children.length = p.children_info.length
    ∧ ((determineFamilyStructureFA p).has_grandparents = true ↔ p.age.getD 30 > 25) := by
  refine ⟨rfl, ?_, ?_, ?_, rfl, rfl, ?_, ?_⟩
  · cases hpi : p.partner_info with
    | none =>
      simp only [hpi, Option.isSome_none, Bool.false_eq_true, iff_false]
      rintro ⟨rc, hmem, hrole⟩
      rw [determineFamilyStructure, hpi, List.nil_append] at hmem
      rcases List.mem_append.mp hmem with hmem | hmem
      · rcases List.mem_map.mp hmem with ⟨c, -, rfl⟩
        simp at hrole
      · split at hmem
        · rcases List.mem_cons.mp hmem with rfl | hmem
          · simp at hrole
          · rcases List.mem_singleton.mp hmem with rfl
            simp at hrole
        · exact absurd hmem (List.not_mem_nil rc)
    | some pi =>
      simp only [determineFamilyStructure, hpi, Option.isSome_some, iff_true]
      exact ⟨{ role := .partner, custom_params := some pi }, by simp, rfl⟩
  · simp only [determineFamilyStructure, List.filter_append]
    have h1 : List.filter (fun rc : RoleConfig => rc.role == FamilyRole.child)
        (match p.partner_info with
         | some pi => [{ role := .partner, custom_params := some pi }]
         | none => []) = [] := by
      cases p.partner_info <;> rfl
    have h2 : (p.children_info.map
          (fun c => ({ role := .child, custom_params := some c } : RoleConfig))).filter
          (fun rc => rc.role == FamilyRole.child)
        = p.children_info.map (fun c => { role := .child, custom_params := some c }) := by
      apply List.filter_eq_self.mpr
      intro a ha
      rcases List.mem_map.mp ha with ⟨c, _, hc⟩
      rw [← hc]; rfl
    have h3 : List.filter (fun rc : RoleConfig => rc.role == FamilyRole.child)
        (if p.age.getD 30 > 25 then
          [{ role := .grandfather }, { role := .grandmother }]
        else []) = [] := by
      split <;> rfl
    rw [h1, h2, h3, List.nil_append, List.append_nil]
  · by_cases hage : p.age.getD 30 > 25
    · have hgf : ({ role := .grandfather } : RoleConfig) ∈ determineFamilyStructure p := by
        simp [determineFamilyStructure, hage]
      have hgm : ({ role := .grandmother } : RoleConfig) ∈ determineFamilyStructure p := by
        simp [determineFamilyStructure, hage]
      exact ⟨fun _ => hage, fun _ => ⟨⟨_, hgf, rfl⟩, ⟨_, hgm, rfl⟩⟩⟩
    · constructor
      · rintro ⟨⟨rc, hmem, hrole⟩, -⟩
        exfalso
        rw [determineFamilyStructure, if_neg hage, List.append_nil] at hmem
        rcases List.mem_append.mp hmem with hmem | hmem
        · cases hpi : p.partner_info with
          | none => rw [hpi] at hmem; exact absurd hmem (List.not_mem_nil rc)
          | some pi =>
            rw [hpi] at hmem
            rcases List.mem_singleton.mp hmem with rfl
            simp at hrole
        · rcases List.mem_map.mp hmem with ⟨c, -, rfl⟩
          simp at hrole
      · intro h; exact absurd h hage
  · simp [determineFamilyStructureFA]
  · simp [determineFamilyStructureFA]

/-- One entry of a persona's private `conversation_history`
(`FamilyMemberAgent.generate_response`). -/
structure HistEntry where
  user_message : String
  agent_response : String
  timestamp : String

/-- `FamilyMemberAgent` (`role_system.py`): the persona object after
`__init__`, with the mutable `current_emotion` and `conversation_history`
made explicit fields.  The stored `user_profile` and api key are only fed
into generation prompts and are not repeated here (the prompts themselves
live behind the `GenService` oracle). -/
structure FamilyMemberAgent where
  role : FamilyRole
  template : RoleTemplate
  name : String
  age : Nat
  personality : Json
  speaking_style : SpeakingStyle
  interests : List String
  values : List String
  current_emotion : String
  relationship_to_user : String
  conversation_history : List HistEntry

/-- The dict returned by `FamilyMemberAgent.get_agent_info`. -/
structure AgentInfo where
  name : String
  role : String
  age : Nat
  personality : Json
  speaking_style : SpeakingStyle
  interests : List String
  values : List String
  current_emotion : String
  relationship_to_user : String

/-- `FamilyMemberAgent.get_agent_info`. -/
def getAgentInfo (a : FamilyMemberAgent) : AgentInfo where
  name := a.name
  role := roleValue a.role
  age := a.age
  personality := a.personality
  speaking_style := a.speaking_style
  interests := a.interests
  values := a.values
  current_emotion := a.current_emotion
  relationship_to_user := a.relationship_to_user

/-- `ChatMessage` dataclass of `enhanced_simultaneous_chat.py`. -/
structure ChatMessage where
  speaker : String
  message : String
  emotion : String
  timestamp : String
  role : String
  agent_info : Option AgentInfo := none

/-- `HappyMoment` dataclass of `enhanced_simultaneous_chat.py`.  The payload
fields hold whatever JSON values `happy_moment_data.get(...)` produced (the
dataclass annotations are not enforced at runtime). -/
structure HappyMoment where
  activity : Json
  description : Json
  emotions : Json
  participants : Json
  setting : Json
  created_at : String
  role_interactions : List (String × String)

/-- The external collaborators: each `openai.ChatCompletion.create` call site
becomes a function of the data its prompt is built from, failing like the
network call; `decode` models `json.loads` (a `none` is a `JSONDecodeError`).
`Except Unit String` results model the raised-or-text outcome of one call. -/
structure GenService where
  personality : FamilyRole → RoleTemplate → Profile → Except Unit String
  response : FamilyMemberAgent → String → String → Except Unit String
  emotion : FamilyMemberAgent → String → String → Except Unit String
  moment : String → List ChatMessage → Except Unit String
  decode : String → Option Json

/-- The error taxonomy: `invalidRole` is the `KeyError` of the template
lookup (the spec's `InvalidRoleError`), `genUnavailable` an exception from the
generation service, `attrError` the `AttributeError` of calling `.get` on a
non-dict JSON result. -/
inductive SysError where
  | invalidRole | genUnavailable | attrError
deriving DecidableEq

/-- `FamilyMemberAgent._generate_child_name` (`role_system.py`).  Note: it
reads `self.user_profile` — the *user's* age (default 5) and gender (default
"unknown"), not the child entry's. -/
def generateChildNameRS (p : Profile) : String :=
  let age := p.age.getD 5
  let gender := p.gender.getD "unknown"
  if age < 7 then (if gender == "male" then "たろう" else "さくら")
  else if age < 13 then (if gender == "male" then "ゆうと" else "みお")
  else (if gender == "male" then "そうた" else "あい")

/-- `FamilyMemberAgent._generate_name`. -/
def generateName (role : FamilyRole) (t : RoleTemplate) (p : Profile) : String :=
  match role with
  | .partner => (p.partner_info.bind (fun pi => pi.name)).getD "美咲"
  | .child => generateChildNameRS p
  | .grandfather => "じいじ"
  | .grandmother => "ばあば"
  | _ => t.name

/-- `FamilyMemberAgent._generate_age`. -/
def generateAge (role : FamilyRole) (p : Profile) : Nat :=
  match role with
  | .partner => (p.partner_info.bind (fun pi => pi.age)).getD (p.age.getD 28)
  | .child => p.age.getD 5
  | .grandfather => 65
  | .grandmother => 62
  | _ => 30

/-- `FamilyMemberAgent._generate_personality`: one generation call whose JSON
result is decoded; a `JSONDecodeError` falls back to the template's traits,
while a failed generation call propagates. -/
def generatePersonality (svc : GenService) (role : FamilyRole) (t : RoleTemplate)
    (p : Profile) : Except SysError Json :=
  match svc.personality role t p with
  | .error _ => .error .genUnavailable
  | .ok s =>
    match svc.decode s with
    | some j => .ok j
    | none => .ok (Json.obj [("traits", Json.arr (t.personality_traits.map Json.str)),
                            ("character", Json.str "温かみのある")])

/-- `FamilyMemberAgent.__init__`. -/
def mkFamilyMemberAgent (svc : GenService) (role : FamilyRole) (t : RoleTemplate)
    (p : Profile) : Except SysError FamilyMemberAgent :=
  match generatePersonality svc role t p with
  | .error e => .error e
  | .ok pers =>
    .ok { role := role
          template := t
          name := generateName role t p
          age := generateAge role p
          personality := pers
          speaking_style := t.speaking_style
          interests := t.interests
          values := t.values
          current_emotion := "neutral"
          relationship_to_user := t.relationship_dynamics.primary_relationship
          conversation_history := [] }

/-- `RoleFactory.create_agent_from_role`: template lookup (a `KeyError` if the
role is not registered), optional custom-params merge, then agent
construction. -/
def createAgentFromRole (svc : GenService) (role : FamilyRole) (p : Profile)
    (customParams : Option ParamsDict) : Except SysError FamilyMemberAgent :=
  match roleTemplates role with
  | none => .error .invalidRole
  | some t0 =>
    let t := match customParams with
             | some ps => applyCustomParams t0 ps
             | none => t0
    mkFamilyMemberAgent svc role t p

/-- `FamilyConfigurationManager.configure_family`'s per-role loop over the
structure returned by `_determine_family_structure`. -/
def createAll (svc : GenService) (p : Profile) :
    List RoleConfig → Except SysError (List FamilyMemberAgent)
  | [] => .ok []
  | rc :: rest =>
    match createAgentFromRole svc rc.role p rc.custom_params with
    | .error e => .error e
    | .ok a =>
      match createAll svc p rest with
      | .error e => .error e
      | .ok as => .ok (a :: as)

/-- `FamilyConfigurationManager.configure_family` (file persistence omitted).
The previous `active_agents` list is discarded (`self.active_agents = []`)
before the new roster is built, so the result depends only on the profile. -/
def configureFamily (svc : GenService) (p : Profile) :
    Except SysError (List FamilyMemberAgent) :=
  createAll svc p (determineFamilyStructure p)

/-- Insertion step of a stable sort by a `Nat` key: the new element goes in
front of the first position whose key is not smaller, so it precedes every
equal-keyed element that was inserted before it. -/
def insertByKey (key : α → Nat) (x : α) : List α → List α
  | [] => [x]
  | y :: ys => if key y < key x then y :: insertByKey key x ys else x :: y :: ys

/-- Stable sort by a `Nat` key, the embedding of Python's (stable) `sorted`
builtin with a `key=` function. -/
def stableSortByKey (key : α → Nat) : List α → List α
  | [] => []
  | x :: xs => insertByKey key x (stableSortByKey key xs)

theorem mem_insertByKey (key : α → Nat) (x a : α) (l : List α) :
    a ∈ insertByKey key x l ↔ a = x ∨ a ∈ l := by
  induction l with
  | nil => simp [insertByKey]
  | cons y ys ih =>
    rw [insertByKey]
    split
    · simp only [List.mem_cons, ih]
      tauto
    · simp [List.mem_cons]

theorem filter_insertByKey_pos (key : α → Nat) (p : α → Bool) (x : α) (l : List α)
    (hx : p x = true) (hkey : ∀ a, p a = true → ¬ key a < key x) :
    (insertByKey key x l).filter p = x :: l.filter p := by
  induction l with
  | nil => simp [insertByKey, List.filter, hx]
  | cons y ys ih =>
    rw [insertByKey]
    split
    · rename_i hlt
      have hpy : p y = false := by
        cases hpy : p y with
        | false => rfl
        | true => exact absurd hlt (hkey y hpy)
      simp [List.filter_cons, hpy, ih]
    · simp [List.filter_cons, hx]

theorem filter_insertByKey_neg (key : α → Nat) (p : α → Bool) (x : α) (l : List α)
    (hx : p x = false) :
    (insertByKey key x l).filter p = l.filter p := by
  induction l with
  | nil => simp [insertByKey, List.filter, hx]
  | cons y ys ih =>
    rw [insertByKey]
    split
    · simp [List.filter_cons, ih]
    · simp [List.filter_cons, hx]

/-- Stability, phrased as in the claim: within every priority class the
sorted output lists exactly the input's elements of that class, in input
order. -/
theorem filter_key_stableSortByKey (key : α → Nat) (l : List α) (r : Nat) :
    (stableSortByKey key l).filter (fun a => key a == r)
      = l.filter (fun a => key a == r) := by
  induction l with
  | nil => rfl
  | cons x xs ih =>
    rw [stableSortByKey]
    by_cases hxr : key x = r
    · rw [filter_insertByKey_pos key _ x _ (by simp [hxr])
        (fun a ha => by
          have h1 : key a = r := by simpa using ha
          rw [h1, hxr]; exact Nat.lt_irrefl r),
        ih, List.filter_cons, if_pos (by simp [hxr])]
    · rw [filter_insertByKey_neg key _ x _ (by simp [hxr]), ih,
        List.filter_cons, if_neg (by simp [hxr])]

theorem pairwise_insertByKey (key : α → Nat) (x : α) (l : List α)
    (hl : l.Pairwise (fun a b => key a ≤ key b)) :
    (insertByKey key x l).Pairwise (fun a b => key a ≤ key b) := by
  induction l with
  | nil => simp [insertByKey]
  | cons y ys ih =>
    rw [insertByKey]
    rcases List.pairwise_cons.mp hl with ⟨hy, hys⟩
    split
    · rename_i hlt
      refine List.pairwise_cons.mpr ⟨?_, ih hys⟩
      intro a ha
      rcases (mem_insertByKey key x a ys).mp ha with rfl | ha
      · exact Nat.le_of_lt hlt
      · exact hy a ha
    · rename_i hge
      refine List.pairwise_cons.mpr ⟨?_, hl⟩
      intro a ha
      rcases List.mem_cons.mp ha with rfl | ha
      · exact Nat.le_of_not_lt hge
      · exact Nat.le_trans (Nat.le_of_not_lt hge) (hy a ha)

/-- The stable sort produces a list that is sorted by the key. -/
theorem pairwise_stableSortByKey (key : α → Nat) (l : List α) :
    (stableSortByKey key l).Pairwise (fun a b => key a ≤ key b) := by
  induction l with
  | nil => exact List.Pairwise.nil
  | cons x xs ih => exact pairwise_insertByKey key x _ ih

/-- Sorting with a key that is constant on the list is the identity: all
ranks tie and stability keeps input order. -/
theorem stableSortByKey_const (key : α → Nat) (c : Nat) (l : List α)
    (h : ∀ a ∈ l, key a = c) : stableSortByKey key l = l := by
  induction l with
  | nil => rfl
  | cons x xs ih =>
    rw [stableSortByKey, ih (fun a ha => h a (List.mem_cons_of_mem x ha))]
    cases xs with
    | nil => rfl
    | cons y ys =>
      rw [insertByKey, if_neg]
      rw [h y (by simp), h x (by simp)]
      exact Nat.lt_irrefl c

theorem insertByKey_map (key : β → Nat) (f : α → β) (x : α) (l : List α) :
    insertByKey key (f x) (l.map f)
      = (insertByKey (fun a => key (f a)) x l).map f := by
  induction l with
  | nil => rfl
  | cons y ys ih =>
    rw [List.map_cons, insertByKey, insertByKey]
    split <;> simp_all

theorem stableSortByKey_map (key : β → Nat) (f : α → β) (l : List α) :
    stableSortByKey key (l.map f)
      = (stableSortByKey (fun a => key (f a)) l).map f := by
  induction l with
  | nil => rfl
  | cons x xs ih => rw [List.map_cons, stableSortByKey, ih, insertByKey_map, stableSortByKey]

theorem enumFrom_map_snd (n : Nat) (l : List α) :
    (List.enumFrom n l).map Prod.snd = l := by
  induction l generalizing n with
  | nil => rfl
  | cons x xs ih => rw [List.enumFrom, List.map_cons, ih]

/-- The message-analysis dict of
`EnhancedSimultaneousChatManager._analyze_message_content`. -/
structure MessageAnalysis where
  needs_wisdom : Bool
  needs_care : Bool
  needs_support : Bool
  needs_joy : Bool

/-- `needle in haystack` on the underlying character lists (Python's
substring containment). -/
def listHasPre [BEq α] : List α → List α → Bool
  | _, [] => true
  | [], _ :: _ => false
  | a :: as, b :: bs => a == b && listHasPre as bs

def listContainsSub [BEq α] : List α → List α → Bool
  | [], needle => needle.isEmpty
  | a :: as, needle => listHasPre (a :: as) needle || listContainsSub as needle

def strContains (haystack needle : String) : Bool :=
  listContainsSub haystack.data needle.data

def wisdomKeywords : List String := ["悩み", "相談", "アドバイス", "経験"]
def careKeywords : List String := ["体調", "健康", "心配", "面倒"]
def supportKeywords : List String := ["助けて", "困った", "不安", "支え"]
def joyKeywords : List String := ["楽しい", "嬉しい", "遊び", "笑い"]

/-- `EnhancedSimultaneousChatManager._analyze_message_content`: each flag is
set iff some keyword of its list occurs in the message (the `for`/`break`
loop sets the flag on the first hit). -/
def analyzeMessageContent (userMessage : String) : MessageAnalysis where
  needs_wisdom := wisdomKeywords.any (fun k => strContains userMessage k)
  needs_care := careKeywords.any (fun k => strContains userMessage k)
  needs_support := supportKeywords.any (fun k => strContains userMessage k)
  needs_joy := joyKeywords.any (fun k => strContains userMessage k)

/-- One entry of `role_interaction_rules`. -/
structure InteractionRule where
  primary_interactions : List String
  support_role : String
  response_priority : String

/-- `EnhancedSimultaneousChatManager._initialize_interaction_rules` (built in
the constructor). -/
def roleInteractionRules : String → Option InteractionRule
  | "partner" => some { primary_interactions := ["child", "grandfather", "grandmother"],
                        support_role := "family_coordinator", response_priority := "high" }
  | "child" => some { primary_interactions := ["partner", "grandfather", "grandmother"],
                      support_role := "family_joy", response_priority := "medium" }
  | "grandfather" => some { primary_interactions := ["child", "partner"],
                            support_role := "wisdom_provider", response_priority := "medium" }
  | "grandmother" => some { primary_interactions := ["child", "partner"],
                            support_role := "care_provider", response_priority := "medium" }
  | _ => none

/-- The `priority_key` closure inside
`EnhancedSimultaneousChatManager._sort_agents_by_priority`.  The
`response_priority` lookup is computed and then unused, exactly as in the
source. -/
def priorityKey (analysis : MessageAnalysis) (a : FamilyMemberAgent) : Nat :=
  let _priority := ((roleInteractionRules (roleValue a.role)).map
    (fun r => r.response_priority)).getD "low"
  if analysis.needs_wisdom && (roleValue a.role == "grandfather") then 0
  else if analysis.needs_care && (roleValue a.role == "grandmother") then 1
  else if analysis.needs_support && (roleValue a.role == "partner") then 2
  else if analysis.needs_joy && (roleValue a.role == "child") then 3
  else 4

/-- The priority rank exactly as the claim words it: rank 0 for a grandfather
when the message contains a wisdom keyword, else rank 1 for a grandmother when
it contains a care keyword, else rank 2 for a partner when it contains a
support keyword, else rank 3 for a child when it contains a joy keyword, and
rank 4 for every other persona. -/
def specRank (userMessage : String) (a : FamilyMemberAgent) : Nat :=
  if wisdomKeywords.any (fun k => strContains userMessage k) && (a.role == .grandfather) then 0
  else if careKeywords.any (fun k => strContains userMessage k) && (a.role == .grandmother) then 1
  else if supportKeywords.any (fun k => strContains userMessage k) && (a.role == .partner) then 2
  else if joyKeywords.any (fun k => strContains userMessage k) && (a.role == .child) then 3
  else 4

/-- The scheduled (index, agent) pairs: Python's `sorted` keeps object
identity, modelled by sorting the roster's `enum` pairs so that in-place
updates can later be written back by index. -/
def scheduledPairs (userMessage : String) (agents : List FamilyMemberAgent) :
    List (Nat × FamilyMemberAgent) :=
  stableSortByKey (fun pr => priorityKey (analyzeMessageContent userMessage) pr.2)
    (agents.enum)

/-- `EnhancedSimultaneousChatManager._sort_agents_by_priority`. -/
def sortAgentsByPriority (userMessage : String) (agents : List FamilyMemberAgent) :
    List FamilyMemberAgent :=
  (scheduledPairs userMessage agents).map Prod.snd

/-- A message containing none of the sixteen scheduling keywords. -/
def noKeywords (userMessage : String) : Bool :=
  let an := analyzeMessageContent userMessage
  !(an.needs_wisdom || an.needs_care || an.needs_support || an.needs_joy)

theorem sortAgentsByPriority_eq (userMessage : String) (agents : List FamilyMemberAgent) :
    sortAgentsByPriority userMessage agents
      = stableSortByKey (priorityKey (analyzeMessageContent userMessage)) agents := by
  rw [sortAgentsByPriority, scheduledPairs]
  have h := stableSortByKey_map (priorityKey (analyzeMessageContent userMessage))
    (Prod.snd : Nat × FamilyMemberAgent → FamilyMemberAgent) agents.enum
  rw [← h, List.enum, enumFrom_map_snd]

theorem priorityKey_of_noKeywords (userMessage : String)
    (h : noKeywords userMessage = true) (a : FamilyMemberAgent) :
    priorityKey (analyzeMessageContent userMessage) a = 4 := by
  rw [noKeywords] at h
  simp only [Bool.not_eq_true', Bool.or_eq_false_iff] at h
  rcases h with ⟨⟨⟨hw, hc⟩, hs⟩, hj⟩
  rw [priorityKey]
  simp only [analyzeMessageContent] at hw hc hs hj ⊢
  simp [hw, hc, hs, hj]

/-- Claim C2: the scheduled response order sorts personas by the priority key
(rank 0 grandfather/wisdom, else 1 grandmother/care, else 2 partner/support,
else 3 child/joy, else 4), the sort is stable so equal ranks keep roster
insertion order, and a keyword-free message schedules the roster order
unchanged. -/
theorem sort_agents_by_priority_correct (agents : List FamilyMemberAgent)
    (userMessage : String) :
    (∀ a, priorityKey (analyzeMessageContent userMessage) a = specRank userMessage a)
    ∧ (sortAgentsByPriority userMessage agents).Pairwise
        (fun x y => priorityKey (analyzeMessageContent userMessage) x
          ≤ priorityKey (analyzeMessageContent userMessage) y)
    ∧ (∀ r, (sortAgentsByPriority userMessage agents).filter
          (fun a => priorityKey (analyzeMessageContent userMessage) a == r)
        = agents.filter (fun a => priorityKey (analyzeMessageContent userMessage) a == r))
    ∧ (noKeywords userMessage = true → sortAgentsByPriority userMessage agents = agents) := by
  refine ⟨?_, ?_, ?_, ?_⟩
  · intro a
    rcases a with ⟨role, t, n, ag, pers, ss, i, v, ce, r2u, ch⟩
    cases role <;> rfl
  · rw [sortAgentsByPriority_eq]
    exact pairwise_stableSortByKey _ _
  · intro r
    rw [sortAgentsByPriority_eq]
    exact filter_key_stableSortByKey _ _ _
  · intro h
    rw [sortAgentsByPriority_eq]
    exact stableSortByKey_const _ 4 _ (fun a _ => priorityKey_of_noKeywords _ h a)

/-- A concrete partner persona (shape produced by `create_agent_from_role`). -/
def agentPartnerW : FamilyMemberAgent where
  role := .partner
  template := partnerTemplate
  name := "美咲"
  age := 26
  personality := Json.obj []
  speaking_style := partnerTemplate.speaking_style
  interests := partnerTemplate.interests
  values := partnerTemplate.values
  current_emotion := "neutral"
  relationship_to_user := "パートナー"
  conversation_history := []

/-- A concrete child persona. -/
def agentChildW : FamilyMemberAgent where
  role := .child
  template := childTemplate
  name := "たろう"
  age := 5
  personality := Json.obj []
  speaking_style := childTemplate.speaking_style
  interests := childTemplate.interests
  values := childTemplate.values
  current_emotion := "neutral"
  relationship_to_user := "子ども"
  conversation_history := []

/-- A concrete grandfather persona. -/
def agentGrandfatherW : FamilyMemberAgent where
  role := .grandfather
  template := grandfatherTemplate
  name := "じいじ"
  age := 65
  personality := Json.obj []
  speaking_style := grandfatherTemplate.speaking_style
  interests := grandfatherTemplate.interests
  values := grandfatherTemplate.values
  current_emotion := "neutral"
  relationship_to_user := "祖父"
  conversation_history := []

/-- Witness for C2 at the spec's Scenario B message, which contains no
scheduling keyword: the scheduled order equals roster order. -/
theorem sort_agents_by_priority_correct_witness :
    noKeywords "子どもたちと公園に行きたい" = true
    ∧ sortAgentsByPriority "子どもたちと公園に行きたい"
        [agentPartnerW, agentChildW, agentGrandfatherW]
      = [agentPartnerW, agentChildW, agentGrandfatherW] :=
  ⟨rfl, (sort_agents_by_priority_correct
      [agentPartnerW, agentChildW, agentGrandfatherW]
      "子どもたちと公園に行きたい").2.2.2 rfl⟩

/-- The mutable state of `EnhancedSimultaneousChatManager` that
`process_user_message` touches. -/
structure ChatState where
  activeAgents : List FamilyMemberAgent
  history : List ChatMessage
  happyMoments : List HappyMoment

/-- `EnhancedSimultaneousChatManager._get_conversation_context`: the last five
log entries formatted as `speaker (role): message` lines. -/
def getConversationContext (hist : List ChatMessage) : String :=
  ((hist.drop (hist.length - 5)).map
    (fun m => m.speaker ++ " (" ++ m.role ++ "): " ++ m.message ++ "\n")).foldl
    (fun acc s => acc ++ s) ""

/-- `EnhancedSimultaneousChatManager._should_agent_respond`: everyone
responds. -/
def shouldAgentRespond (_a : FamilyMemberAgent) (_userMessage : String) : Bool :=
  true

/-- `FamilyMemberAgent.generate_response` together with the `_update_emotion`
it calls: one generation call for the text, then one for the emotion label.
Either call raising aborts the method (there is no handler); on success the
emotion label (stripped) replaces `current_emotion` and the exchange is pushed
onto the persona's private history. -/
def agentGenerateResponse (svc : GenService) (now : String) (a : FamilyMemberAgent)
    (userMessage context : String) : Except SysError (String × FamilyMemberAgent) :=
  match svc.response a userMessage context with
  | .error _ => .error .genUnavailable
  | .ok text =>
    match svc.emotion a userMessage text with
    | .error _ => .error .genUnavailable
    | .ok em =>
      .ok (text, { a with
        current_emotion := em.trim
        conversation_history := a.conversation_history
          ++ [{ user_message := userMessage, agent_response := text, timestamp := now }] })

/-- `EnhancedSimultaneousChatManager._generate_agent_response`: takes the
context snapshot from the log, delegates to the persona, and wraps the result
as a `ChatMessage` whose emotion is the persona's just-updated emotion. -/
def generateAgentResponseE (svc : GenService) (now : String) (hist : List ChatMessage)
    (a : FamilyMemberAgent) (userMessage : String) :
    Except SysError (ChatMessage × FamilyMemberAgent) :=
  match agentGenerateResponse svc now a userMessage (getConversationContext hist) with
  | .error e => .error e
  | .ok (text, a1) =>
    .ok ({ speaker := a1.name
           message := text
           emotion := a1.current_emotion
           timestamp := now
           role := roleValue a1.role
           agent_info := some (getAgentInfo a1) }, a1)

/-- The response loop of
`EnhancedSimultaneousChatManager._generate_role_based_responses`, walking the
scheduled (index, agent) pairs.  An exception from any persona's generation
aborts the loop (and the whole `process_user_message` call); in-place agent
mutations made by already-completed iterations survive as the update list. -/
def respondGo (svc : GenService) (now : String) (hist : List ChatMessage)
    (userMessage : String) :
    List (Nat × FamilyMemberAgent) → List ChatMessage → List (Nat × FamilyMemberAgent) →
    Except SysError (List ChatMessage) × List (Nat × FamilyMemberAgent)
  | [], acc, upds => (.ok acc, upds)
  | (i, a) :: rest, acc, upds =>
    if shouldAgentRespond a userMessage then
      match generateAgentResponseE svc now hist a userMessage with
      | .error e => (.error e, upds)
      | .ok (cm, a1) =>
        respondGo svc now hist userMessage rest (acc ++ [cm]) (upds ++ [(i, a1)])
    else
      respondGo svc now hist userMessage rest acc upds

/-- Write the in-place persona mutations back into the roster (Python mutates
the shared objects; the sort works on the same references). -/
def applyUpdates (agents : List FamilyMemberAgent)
    (upds : List (Nat × FamilyMemberAgent)) : List FamilyMemberAgent :=
  upds.foldl (fun ags iu => ags.set iu.1 iu.2) agents

/-- `EnhancedSimultaneousChatManager._generate_role_based_responses`. -/
def genRoleBasedResponses (svc : GenService) (now : String) (userMessage : String)
    (agents : List FamilyMemberAgent) (hist : List ChatMessage) :
    Except SysError (List ChatMessage) × List FamilyMemberAgent :=
  let r := respondGo svc now hist userMessage (scheduledPairs userMessage agents) [] []
  (r.1, applyUpdates agents r.2)

/-- `dict.__setitem__` on an insertion-ordered string map. -/
def setAssoc (m : List (String × String)) (k v : String) : List (String × String) :=
  if m.any (fun kv => kv.1 == k) then
    m.map (fun kv => if kv.1 == k then (k, v) else kv)
  else m ++ [(k, v)]

/-- The `role_interactions` dict built at the top of
`_extract_happy_moments`: role tag → that role's message (later responses of
the same role overwrite). -/
def buildRoleInteractions (responses : List ChatMessage) : List (String × String) :=
  responses.foldl (fun m r => setAssoc m r.role r.message) []

/-- `EnhancedSimultaneousChatManager._extract_happy_moments`.  Only the
`json.loads` step is inside the `try`: a `JSONDecodeError` is swallowed
(`pass`), but a failure of the generation call itself propagates, and decoded
JSON that is not an object makes the subsequent `.get` calls raise
`AttributeError`, also uncaught. -/
def extractHappyMoments (svc : GenService) (now : String) (userMessage : String)
    (responses : List ChatMessage) : Except SysError (Option HappyMoment) :=
  let roleInteractions := buildRoleInteractions responses
  match svc.moment userMessage responses with
  | .error _ => .error .genUnavailable
  | .ok s =>
    match svc.decode s with
    | none => .ok none
    | some (Json.obj kvs) =>
      .ok (some { activity := jsonGetD kvs "activity" (Json.str "")
                  description := jsonGetD kvs "description" (Json.str "")
                  emotions := jsonGetD kvs "emotions" (Json.arr [])
                  participants := jsonGetD kvs "participants" (Json.arr [])
                  setting := jsonGetD kvs "setting" (Json.str "")
                  created_at := now
                  role_interactions := roleInteractions })
    | some _ => .error .attrError

/-- The user's own `ChatMessage` as logged first by `process_user_message`:
fixed speaker `"ユーザー"`, emotion `"neutral"`, role `"user"`. -/
def mkUserMessage (now userMessage : String) : ChatMessage where
  speaker := "ユーザー"
  message := userMessage
  emotion := "neutral"
  timestamp := now
  role := "user"

/-- `EnhancedSimultaneousChatManager.process_user_message`: append the user
message, generate the round's responses in priority order, extend the log with
them, then try moment extraction; file persistence is omitted.  The returned
`Except` carries either the response batch or the exception that escaped, and
the state reflects every mutation made before the exception. -/
def processUserMessage (svc : GenService) (now : String) (userMessage : String)
    (st : ChatState) : Except SysError (List ChatMessage) × ChatState :=
  let hist1 := st.history ++ [mkUserMessage now userMessage]
  let gr := genRoleBasedResponses svc now userMessage st.activeAgents hist1
  match gr.1 with
  | .error e => (.error e, { st with history := hist1, activeAgents := gr.2 })
  | .ok responses =>
    let hist2 := hist1 ++ responses
    match extractHappyMoments svc now userMessage responses with
    | .error e => (.error e, { st with history := hist2, activeAgents := gr.2 })
    | .ok mo =>
      (.ok responses,
       { st with history := hist2, activeAgents := gr.2,
                 happyMoments := st.happyMoments ++ mo.toList })

theorem generateAgentResponseE_ok (svc : GenService) (now : String)
    (hist : List ChatMessage) (a : FamilyMemberAgent) (userMessage : String)
    (cm : ChatMessage) (a1 : FamilyMemberAgent)
    (h : generateAgentResponseE svc now hist a userMessage = .ok (cm, a1)) :
    cm.speaker = a.name ∧ cm.role = roleValue a.role ∧ a1.name = a.name
      ∧ a1.role = a.role := by
  rw [generateAgentResponseE, agentGenerateResponse] at h
  cases h1 : svc.response a userMessage (getConversationContext hist) with
  | error e => simp only [h1] at h; exact Except.noConfusion h
  | ok text =>
    simp only [h1] at h
    cases h2 : svc.emotion a userMessage text with
    | error e => simp only [h2] at h; exact Except.noConfusion h
    | ok em =>
      simp only [h2, Except.ok.injEq, Prod.mk.injEq] at h
      rcases h with ⟨hcm, ha1⟩
      rw [← hcm, ← ha1]
      exact ⟨rfl, rfl, rfl, rfl⟩

theorem respondGo_ok (svc : GenService) (now : String) (hist : List ChatMessage)
    (userMessage : String) (pairs : List (Nat × FamilyMemberAgent)) :
    ∀ (acc rs : List ChatMessage) (upds upds2 : List (Nat × FamilyMemberAgent)),
      respondGo svc now hist userMessage pairs acc upds = (.ok rs, upds2) →
      ∃ ms, rs = acc ++ ms
        ∧ ms.map (fun m => m.speaker) = pairs.map (fun pr => pr.2.name) := by
  induction pairs with
  | nil =>
    intro acc rs upds upds2 h
    rw [respondGo] at h
    simp only [Prod.mk.injEq, Except.ok.injEq] at h
    exact ⟨[], by rw [← h.1, List.append_nil], rfl⟩
  | cons pr rest ih =>
    intro acc rs upds upds2 h
    rcases pr with ⟨i, a⟩
    rw [respondGo] at h
    simp only [shouldAgentRespond, if_true] at h
    cases hg : generateAgentResponseE svc now hist a userMessage with
    | error e => rw [hg] at h; exact absurd h (by simp)
    | ok p =>
      rcases p with ⟨cm, a1⟩
      rw [hg] at h
      rcases ih (acc ++ [cm]) rs (upds ++ [(i, a1)]) upds2 h with ⟨ms, hrs, hmap⟩
      refine ⟨cm :: ms, ?_, ?_⟩
      · rw [hrs, List.append_assoc]; rfl
      · rw [List.map_cons, hmap, List.map_cons,
          (generateAgentResponseE_ok svc now hist a userMessage cm a1 hg).1]

theorem processUserMessage_error1 (svc : GenService) (now userMessage : String)
    (st : ChatState) (e : SysError)
    (h : (genRoleBasedResponses svc now userMessage st.activeAgents
          (st.history ++ [mkUserMessage now userMessage])).1 = .error e) :
    processUserMessage svc now userMessage st
      = (.error e,
         { st with history := st.history ++ [mkUserMessage now userMessage]
                   activeAgents := (genRoleBasedResponses svc now userMessage
                     st.activeAgents
                     (st.history ++ [mkUserMessage now userMessage])).2 }) := by
  rw [processUserMessage]
  simp only [h]

theorem processUserMessage_error2 (svc : GenService) (now userMessage : String)
    (st : ChatState) (responses : List ChatMessage) (e : SysError)
    (hg : (genRoleBasedResponses svc now userMessage st.activeAgents
          (st.history ++ [mkUserMessage now userMessage])).1 = .ok responses)
    (hm : extractHappyMoments svc now userMessage responses = .error e) :
    processUserMessage svc now userMessage st
      = (.error e,
         { st with history := (st.history ++ [mkUserMessage now userMessage]) ++ responses
                   activeAgents := (genRoleBasedResponses svc now userMessage
                     st.activeAgents
                     (st.history ++ [mkUserMessage now userMessage])).2 }) := by
  rw [processUserMessage]
  simp only [hg, hm]

theorem processUserMessage_ok (svc : GenService) (now userMessage : String)
    (st : ChatState) (responses : List ChatMessage) (mo : Option HappyMoment)
    (hg : (genRoleBasedResponses svc now userMessage st.activeAgents
          (st.history ++ [mkUserMessage now userMessage])).1 = .ok responses)
    (hm : extractHappyMoments svc now userMessage responses = .ok mo) :
    processUserMessage svc now userMessage st
      = (.ok responses,
         { st with history := (st.history ++ [mkUserMessage now userMessage]) ++ responses
                   activeAgents := (genRoleBasedResponses svc now userMessage
                     st.activeAgents
                     (st.history ++ [mkUserMessage now userMessage])).2
                   happyMoments := st.happyMoments ++ mo.toList }) := by
  rw [processUserMessage]
  simp only [hg, hm]

theorem genRoleBasedResponses_ok_speakers (svc : GenService) (now userMessage : String)
    (agents : List FamilyMemberAgent) (hist : List ChatMessage)
    (responses : List ChatMessage)
    (h : (genRoleBasedResponses svc now userMessage agents hist).1 = .ok responses) :
    responses.map (fun m => m.speaker)
      = (sortAgentsByPriority userMessage agents).map (fun a => a.name) := by
  have hpair : respondGo svc now hist userMessage (scheduledPairs userMessage agents) [] []
      = (.ok responses,
         (respondGo svc now hist userMessage (scheduledPairs userMessage agents) [] []).2) := by
    have h1 : (respondGo svc now hist userMessage
        (scheduledPairs userMessage agents) [] []).1 = .ok responses := h
    rw [← h1]
  rcases respondGo_ok svc now hist userMessage (scheduledPairs userMessage agents)
    [] responses [] _ hpair with ⟨ms, hrs, hmap⟩
  rw [List.nil_append] at hrs
  rw [hrs, hmap, sortAgentsByPriority, List.map_map]
  rfl

/-- Claim C4: every call to `process_user_message` appends the user's message
first — fixed speaker `"ユーザー"`, emotion `"neutral"` — before any persona
response; a successful round appends the persona responses after it in the
scheduler-determined order; and the prior log is only ever extended, never
edited or truncated (it stays a prefix of the new log in every outcome). -/
theorem process_user_message_log_order (svc : GenService) (now userMessage : String)
    (st : ChatState) :
    (mkUserMessage now userMessage).speaker = "ユーザー"
    ∧ (mkUserMessage now userMessage).emotion = "neutral"
    ∧ (∃ tail, (processUserMessage svc now userMessage st).2.history
        = st.history ++ mkUserMessage now userMessage :: tail)
    ∧ ∀ rs, (processUserMessage svc now userMessage st).1 = .ok rs →
        (processUserMessage svc now userMessage st).2.history
          = st.history ++ mkUserMessage now userMessage :: rs
        ∧ rs.map (fun m => m.speaker)
          = (sortAgentsByPriority userMessage st.activeAgents).map (fun a => a.name) := by
  refine ⟨rfl, rfl, ?_⟩
  cases hgr : (genRoleBasedResponses svc now userMessage st.activeAgents
      (st.history ++ [mkUserMessage now userMessage])).1 with
  | error e =>
    rw [processUserMessage_error1 svc now userMessage st e hgr]
    constructor
    · exact ⟨[], by simp⟩
    · intro rs hrs; exact absurd hrs (by simp)
  | ok responses =>
    cases hm : extractHappyMoments svc now userMessage responses with
    | error e =>
      rw [processUserMessage_error2 svc now userMessage st responses e hgr hm]
      constructor
      · exact ⟨responses, by simp⟩
      · intro rs hrs; exact absurd hrs (by simp)
    | ok mo =>
      rw [processUserMessage_ok svc now userMessage st responses mo hgr hm]
      constructor
      · exact ⟨responses, by simp⟩
      · intro rs hrs
        simp only [Except.ok.injEq] at hrs
        subst hrs
        exact ⟨by simp,
          genRoleBasedResponses_ok_speakers svc now userMessage
            st.activeAgents _ responses hgr⟩

/-- A generation service where every call succeeds and every structured
output fails to decode (so best-effort decodes take their fallbacks). -/
def svcOk : GenService where
  personality := fun _ _ _ => .ok "traits"
  response := fun _ _ _ => .ok "そうだね"
  emotion := fun _ _ _ => .ok "happy"
  moment := fun _ _ => .ok "x"
  decode := fun _ => none

/-- A three-persona roster state with an empty log. -/
def chatStW : ChatState where
  activeAgents := [agentPartnerW, agentChildW, agentGrandfatherW]
  history := []
  happyMoments := []

/-- A single-persona roster state with an empty log. -/
def chatSt1 : ChatState where
  activeAgents := [agentPartnerW]
  history := []
  happyMoments := []

/-- The response batch of the C4 witness run. -/
def rsW : List ChatMessage :=
  ((processUserMessage svcOk "t0" "こんにちは" chatStW).1).toOption.getD []

/-- Witness for C4: a concrete successful round commits the user message
first and the persona responses after it in scheduled order. -/
theorem process_user_message_log_order_witness :
    (processUserMessage svcOk "t0" "こんにちは" chatStW).2.history
      = chatStW.history ++ mkUserMessage "t0" "こんにちは" :: rsW
    ∧ rsW.map (fun m => m.speaker)
      = (sortAgentsByPriority "こんにちは" chatStW.activeAgents).map (fun a => a.name) :=
  (process_user_message_log_order svcOk "t0" "こんにちは" chatStW).2.2.2 rsW rfl

/-- A generation service whose text generation fails for exactly one persona
(the grandfather) and succeeds for everyone else. -/
def svcFail3 : GenService where
  personality := fun _ _ _ => .ok "traits"
  response := fun a _ _ => if a.name == "じいじ" then .error () else .ok "応援するよ"
  emotion := fun _ _ _ => .ok "happy"
  moment := fun _ _ => .ok "x"
  decode := fun _ => none

/-- Claim C3 counterexample: with three eligible personas and the generation
service failing for exactly one of them, `process_user_message` raises
(`GenerationUnavailable` escapes to the caller) and commits no persona turn at
all — the log gains only the user's message, not the two successful turns the
claim promises. -/
theorem generation_failure_raises_cex :
    (processUserMessage svcFail3 "t0" "今日は公園に行ったよ" chatStW).1
        = Except.error SysError.genUnavailable
    ∧ (processUserMessage svcFail3 "t0" "今日は公園に行ったよ" chatStW).2.history
        = [mkUserMessage "t0" "今日は公園に行ったよ"] :=
  ⟨rfl, rfl⟩

/-- Claim C3 amended: if the text-generation call fails for an eligible
persona of the round, the exception propagates to the caller of
`process_user_message` and no persona turn commits for that round — the
conversation log gains exactly the user's own message. -/
theorem generation_failure_aborts_round (svc : GenService) (now userMessage : String)
    (st : ChatState) (e : SysError)
    (h : (genRoleBasedResponses svc now userMessage st.activeAgents
          (st.history ++ [mkUserMessage now userMessage])).1 = .error e) :
    (processUserMessage svc now userMessage st).1 = .error e
    ∧ (processUserMessage svc now userMessage st).2.history
        = st.history ++ [mkUserMessage now userMessage] := by
  rw [processUserMessage_error1 svc now userMessage st e h]
  exact ⟨rfl, rfl⟩

/-- Witness for the amended C3 at a concrete failing round. -/
theorem generation_failure_aborts_round_witness :
    (processUserMessage svcFail3 "t1" "今日は晴れです" chatStW).1
        = Except.error SysError.genUnavailable
    ∧ (processUserMessage svcFail3 "t1" "今日は晴れです" chatStW).2.history
        = chatStW.history ++ [mkUserMessage "t1" "今日は晴れです"] :=
  generation_failure_aborts_round svcFail3 "t1" "今日は晴れです" chatStW
    SysError.genUnavailable rfl

/-- A generation service whose text generation succeeds but whose
emotion-classification call always fails. -/
def svcFail5 : GenService where
  personality := fun _ _ _ => .ok "traits"
  response := fun _ _ _ => .ok "応答します"
  emotion := fun _ _ _ => .error ()
  moment := fun _ _ => .ok "x"
  decode := fun _ => none

/-- Claim C5 counterexample: when the emotion-classification call fails, the
persona's `current_emotion` does keep its previous value ("neutral"), but the
turn does NOT still commit — `_update_emotion` has no handler, so the
exception aborts `generate_response`, no turn is logged, and
`process_user_message` raises. -/
theorem emotion_failure_blocks_turn_cex :
    (processUserMessage svcFail5 "t0" "おはよう" chatSt1).1
        = Except.error SysError.genUnavailable
    ∧ (processUserMessage svcFail5 "t0" "おはよう" chatSt1).2.history
        = [mkUserMessage "t0" "おはよう"]
    ∧ (processUserMessage svcFail5 "t0" "おはよう" chatSt1).2.activeAgents
        = [agentPartnerW] :=
  ⟨rfl, rfl, rfl⟩

/-- Claim C5 amended: if the emotion-classification call fails for the first
scheduled persona, its `current_emotion` keeps its previous value (the roster
is untouched), but the failure blocks the turn: no turn commits and the
exception propagates out of `process_user_message`. -/
theorem emotion_failure_keeps_emotion (svc : GenService) (now userMessage : String)
    (st : ChatState) (i : Nat) (a : FamilyMemberAgent)
    (rest : List (Nat × FamilyMemberAgent)) (text : String)
    (hsched : scheduledPairs userMessage st.activeAgents = (i, a) :: rest)
    (hresp : svc.response a userMessage
        (getConversationContext (st.history ++ [mkUserMessage now userMessage]))
      = .ok text)
    (hemo : svc.emotion a userMessage text = .error ()) :
    (processUserMessage svc now userMessage st).1
        = Except.error SysError.genUnavailable
    ∧ (processUserMessage svc now userMessage st).2.activeAgents = st.activeAgents
    ∧ (processUserMessage svc now userMessage st).2.history
        = st.history ++ [mkUserMessage now userMessage] := by
  have hgen : generateAgentResponseE svc now
      (st.history ++ [mkUserMessage now userMessage]) a userMessage
      = .error .genUnavailable := by
    rw [generateAgentResponseE, agentGenerateResponse, hresp]
    simp only [hemo]
  have hgo : respondGo svc now (st.history ++ [mkUserMessage now userMessage])
      userMessage ((i, a) :: rest) [] []
      = (.error .genUnavailable, []) := by
    rw [respondGo]
    simp only [shouldAgentRespond, if_true, hgen]
  have hgr1 : (genRoleBasedResponses svc now userMessage st.activeAgents
      (st.history ++ [mkUserMessage now userMessage])).1
      = .error .genUnavailable := by
    show (respondGo svc now (st.history ++ [mkUserMessage now userMessage])
      userMessage (scheduledPairs userMessage st.activeAgents) [] []).1
      = .error .genUnavailable
    rw [hsched, hgo]
  have hgr2 : (genRoleBasedResponses svc now userMessage st.activeAgents
      (st.history ++ [mkUserMessage now userMessage])).2 = st.activeAgents := by
    show applyUpdates st.activeAgents
      (respondGo svc now (st.history ++ [mkUserMessage now userMessage])
        userMessage (scheduledPairs userMessage st.activeAgents) [] []).2
      = st.activeAgents
    rw [hsched, hgo]
    rfl
  rw [processUserMessage_error1 svc now userMessage st _ hgr1]
  exact ⟨rfl, hgr2, rfl⟩

/-- Witness for the amended C5 at a concrete failing round. -/
theorem emotion_failure_keeps_emotion_witness :
    (processUserMessage svcFail5 "t1" "こんばんは" chatSt1).1
        = Except.error SysError.genUnavailable
    ∧ (processUserMessage svcFail5 "t1" "こんばんは" chatSt1).2.activeAgents
        = chatSt1.activeAgents
    ∧ (processUserMessage svcFail5 "t1" "こんばんは" chatSt1).2.history
        = chatSt1.history ++ [mkUserMessage "t1" "こんばんは"] :=
  emotion_failure_keeps_emotion svcFail5 "t1" "こんばんは" chatSt1
    0 agentPartnerW [] "応答します" rfl rfl rfl

/-- A generation service where the round's responses succeed but the
moment-extraction generation call fails. -/
def svcFail6 : GenService where
  personality := fun _ _ _ => .ok "traits"
  response := fun _ _ _ => .ok "いいね"
  emotion := fun _ _ _ => .ok "happy"
  moment := fun _ _ => .error ()
  decode := fun _ => none

/-- Claim C6 counterexample: the claim also promises "no error raised" when
the moment-extraction *generation* fails, but that call sits outside the
`try` block: `process_user_message` raises (the committed log keeps the round,
and no `HappyMoment` is appended). -/
theorem moment_generation_failure_raises_cex :
    (processUserMessage svcFail6 "t0" "ただいま" chatSt1).1
        = Except.error SysError.genUnavailable
    ∧ (processUserMessage svcFail6 "t0" "ただいま" chatSt1).2.happyMoments = [] :=
  ⟨rfl, rfl⟩

/-- Claim C6 amended: when the structured output cannot be decoded
(`JSONDecodeError`), no `HappyMoment` is appended, the log and roster are left
exactly as the round committed them, no error reaches the caller and nothing
is retried; but when the extraction's generation call itself fails, no moment
is appended and the error propagates to the caller. -/
theorem moment_extraction_failure_policy (svc : GenService) (now userMessage : String)
    (st : ChatState) (responses : List ChatMessage)
    (hg : (genRoleBasedResponses svc now userMessage st.activeAgents
          (st.history ++ [mkUserMessage now userMessage])).1 = .ok responses) :
    (∀ s, svc.moment userMessage responses = .ok s → svc.decode s = none →
      (processUserMessage svc now userMessage st).1 = .ok responses
      ∧ (processUserMessage svc now userMessage st).2.happyMoments = st.happyMoments
      ∧ (processUserMessage svc now userMessage st).2.history
          = (st.history ++ [mkUserMessage now userMessage]) ++ responses)
    ∧ (svc.moment userMessage responses = .error () →
      (processUserMessage svc now userMessage st).1
          = Except.error SysError.genUnavailable
      ∧ (processUserMessage svc now userMessage st).2.happyMoments = st.happyMoments
      ∧ (processUserMessage svc now userMessage st).2.history
          = (st.history ++ [mkUserMessage now userMessage]) ++ responses) := by
  constructor
  · intro s hs hdec
    have hex : extractHappyMoments svc now userMessage responses = .ok none := by
      rw [extractHappyMoments]
      simp only [hs, hdec]
    rw [processUserMessage_ok svc now userMessage st responses none hg hex]
    exact ⟨rfl, by simp, rfl⟩
  · intro hmo
    have hex : extractHappyMoments svc now userMessage responses
        = .error .genUnavailable := by
      rw [extractHappyMoments]
      simp only [hmo]
    rw [processUserMessage_error2 svc now userMessage st responses _ hg hex]
    exact ⟨rfl, rfl, rfl⟩

/-- The response batch of the decode-failure half of the C6 witness. -/
def rs6a : List ChatMessage :=
  ((genRoleBasedResponses svcOk "t2" "ただいま" chatSt1.activeAgents
    (chatSt1.history ++ [mkUserMessage "t2" "ただいま"])).1).toOption.getD []

/-- The response batch of the generation-failure half of the C6 witness. -/
def rs6b : List ChatMessage :=
  ((genRoleBasedResponses svcFail6 "t3" "おかえり" chatSt1.activeAgents
    (chatSt1.history ++ [mkUserMessage "t3" "おかえり"])).1).toOption.getD []

/-- Witness for the amended C6: one concrete decode-failure round (no error,
no moment) and one concrete generation-failure round (error propagates). -/
theorem moment_extraction_failure_policy_witness :
    ((processUserMessage svcOk "t2" "ただいま" chatSt1).1 = .ok rs6a
      ∧ (processUserMessage svcOk "t2" "ただいま" chatSt1).2.happyMoments
          = chatSt1.happyMoments
      ∧ (processUserMessage svcOk "t2" "ただいま" chatSt1).2.history
          = (chatSt1.history ++ [mkUserMessage "t2" "ただいま"]) ++ rs6a)
    ∧ ((processUserMessage svcFail6 "t3" "おかえり" chatSt1).1
          = Except.error SysError.genUnavailable
      ∧ (processUserMessage svcFail6 "t3" "おかえり" chatSt1).2.happyMoments
          = chatSt1.happyMoments
      ∧ (processUserMessage svcFail6 "t3" "おかえり" chatSt1).2.history
          = (chatSt1.history ++ [mkUserMessage "t3" "おかえり"]) ++ rs6b) :=
  ⟨(moment_extraction_failure_policy svcOk "t2" "ただいま" chatSt1 rs6a rfl).1 "x" rfl rfl,
   (moment_extraction_failure_policy svcFail6 "t3" "おかえり" chatSt1 rs6b rfl).2 rfl⟩

/-- `FamilyMember` dataclass of `family_agent.py`: `current_emotion` defaults
to `"neutral"` and no constructor overrides it. -/
structure FamilyMember where
  name : String
  role : FamilyRole
  age : Nat
  personality : Json
  speaking_style : SpeakingStyle
  interests : List String
  values : List String
  current_emotion : String := "neutral"
  relationship_to_user : String := ""

/-- `FamilyAgent._generate_child_name`: age-banded buckets over the *child
entry's* age and gender. -/
def generateChildNameFA (age : Nat) (gender : String) : String :=
  if age < 7 then (if gender == "male" then "たろう" else "さくら")
  else if age < 13 then (if gender == "male" then "ゆうと" else "みお")
  else (if gender == "male" then "そうた" else "あい")

/-- `FamilyAgent._generate_child_personality`. -/
def generateChildPersonalityFA (age : Nat) : Json :=
  if age < 7 then
    Json.obj [("traits", Json.arr [Json.str "好奇心旺盛", Json.str "元気", Json.str "素直"]),
              ("character", Json.str "可愛らしい、純真")]
  else if age < 13 then
    Json.obj [("traits", Json.arr [Json.str "活発", Json.str "勉強好き", Json.str "友達思い"]),
              ("character", Json.str "元気いっぱい、好奇心旺盛")]
  else
    Json.obj [("traits", Json.arr [Json.str "思春期", Json.str "自立心", Json.str "友達重視"]),
              ("character", Json.str "少し生意気、成長期")]

/-- `FamilyAgent._generate_child_speaking_style`. -/
def generateChildSpeakingStyleFA (age : Nat) : SpeakingStyle :=
  if age < 7 then
    { tone := "可愛らしい", vocabulary := "簡単な言葉", emotions := ["純真", "喜び", "驚き"] }
  else if age < 13 then
    { tone := "元気いっぱい", vocabulary := "年齢相応", emotions := ["興奮", "好奇心", "達成感"] }
  else
    { tone := "少し生意気", vocabulary := "若者言葉", emotions := ["反抗期", "友情", "成長"] }

/-- `FamilyAgent._generate_child_interests`. -/
def generateChildInterestsFA (age : Nat) : List String :=
  if age < 7 then ["おもちゃ", "絵本", "公園遊び", "アニメ"]
  else if age < 13 then ["スポーツ", "読書", "ゲーム", "友達"]
  else ["音楽", "スポーツ", "SNS", "友達"]

/-- `FamilyAgent._generate_child_values`. -/
def generateChildValuesFA (age : Nat) : List String :=
  if age < 7 then ["楽しさ", "家族", "おもちゃ", "遊び"]
  else if age < 13 then ["友達", "勉強", "スポーツ", "家族"]
  else ["友達", "自由", "成長", "家族"]

/-- `FamilyAgent._generate_child`: every attribute is selected by the *child
entry's* age (default 5) and gender (default "unknown"). -/
def generateChildFA (childInfo : ParamsDict) (_p : Profile) : FamilyMember :=
  let age := childInfo.age.getD 5
  let gender := childInfo.gender.getD "unknown"
  { name := generateChildNameFA age gender
    role := .child
    age := age
    personality := generateChildPersonalityFA age
    speaking_style := generateChildSpeakingStyleFA age
    interests := generateChildInterestsFA age
    values := generateChildValuesFA age
    relationship_to_user := "子ども" }

/-- `FamilyAgent._generate_grandfather`. -/
def generateGrandfatherFA (_p : Profile) : FamilyMember where
  name := "じいじ"
  role := .grandfather
  age := 65
  personality := Json.obj
    [("traits", Json.arr [Json.str "穏やか", Json.str "経験豊富",
        Json.str "家族思い", Json.str "知恵深い"]),
     ("character", Json.str "落ち着いた、慈愛深い")]
  speaking_style := { tone := "落ち着いた", vocabulary := "丁寧語",
                      emotions := ["慈愛", "安心感", "誇り"] }
  interests := ["園芸", "将棋", "散歩", "読書"]
  values := ["伝統", "家族の絆", "知恵", "健康"]
  relationship_to_user := "祖父"

/-- `FamilyAgent._generate_grandmother`. -/
def generateGrandmotherFA (_p : Profile) : FamilyMember where
  name := "ばあば"
  role := .grandmother
  age := 62
  personality := Json.obj
    [("traits", Json.arr [Json.str "優しい", Json.str "料理好き",
        Json.str "孫思い", Json.str "愛情深い"]),
     ("character", Json.str "温かみのある、思いやり深い")]
  speaking_style := { tone := "温かみのある", vocabulary := "優しい言葉",
                      emotions := ["愛情", "心配", "喜び"] }
  interests := ["料理", "裁縫", "お花", "孫との時間"]
  values := ["家族の健康", "伝統", "愛情", "絆"]
  relationship_to_user := "祖母"

/-- The child entry of the failing input for C7. -/
def childEntryBug : ParamsDict := { age := some 5, gender := some "male" }

/-- The failing profile for C7: a 30-year-old user with a 5-year-old male
child entry. -/
def profileBug : Profile := { age := some 30, children_info := [childEntryBug] }

/-- Claim C7 (code bug): `FamilyAgent` selects the child persona's name from
the bucket of the *entry's* age and gender, exactly as the claim states — but
the `role_system.py` path reads the *user profile's* age and gender instead:
for a 5-year-old male child entry under a 30-year-old user with no gender the
role-system persona is named "あい" (the age ≥ 13, non-male bucket), not
"たろう". -/
theorem child_name_bucket_divergence :
    (∀ (c : ParamsDict) (p : Profile), (generateChildFA c p).name
        = generateChildNameFA (c.age.getD 5) (c.gender.getD "unknown"))
    ∧ (∀ (age : Nat) (gender : String), generateChildNameFA age gender
        = if age < 7 then (if gender == "male" then "たろう" else "さくら")
          else if age < 13 then (if gender == "male" then "ゆうと" else "みお")
          else (if gender == "male" then "そうた" else "あい"))
    ∧ generateChildNameFA 5 "male" = "たろう"
    ∧ (createAgentFromRole svcOk FamilyRole.child profileBug
        (some childEntryBug)).toOption.map (fun a => a.name) = some "あい"
    ∧ generateChildNameRS profileBug = "あい" :=
  ⟨fun _ _ => rfl, fun _ _ => rfl, rfl, rfl, rfl⟩

theorem mkFamilyMemberAgent_ok (svc : GenService) (role : FamilyRole)
    (t : RoleTemplate) (p : Profile) (a : FamilyMemberAgent)
    (h : mkFamilyMemberAgent svc role t p = .ok a) :
    a.role = role ∧ a.current_emotion = "neutral" := by
  rw [mkFamilyMemberAgent] at h
  cases hP : generatePersonality svc role t p with
  | error e => simp only [hP] at h; exact Except.noConfusion h
  | ok pers =>
    simp only [hP, Except.ok.injEq] at h
    rw [← h]
    exact ⟨rfl, rfl⟩

theorem createAgentFromRole_ok (svc : GenService) (r : FamilyRole) (p : Profile)
    (cp : Option ParamsDict) (a : FamilyMemberAgent)
    (h : createAgentFromRole svc r p cp = .ok a) :
    a.role = r ∧ a.current_emotion = "neutral" := by
  rw [createAgentFromRole] at h
  cases hT : roleTemplates r with
  | none => simp only [hT] at h; exact Except.noConfusion h
  | some t0 =>
    simp only [hT] at h
    exact mkFamilyMemberAgent_ok svc r _ p a h

/-- Claim C8: the sibling and pet tags are in the role enumeration but not in
the template catalog, so instantiation fails (`KeyError`, the spec's
`InvalidRoleError`) and constructs no persona; when instantiation does
succeed, the persona carries exactly the requested role — never a silent
substitute. -/
theorem invalid_role_rejected (svc : GenService) (p : Profile)
    (cp : Option ParamsDict) :
    createAgentFromRole svc FamilyRole.sibling p cp = .error SysError.invalidRole
    ∧ createAgentFromRole svc FamilyRole.pet p cp = .error SysError.invalidRole
    ∧ ∀ (r : FamilyRole) (a : FamilyMemberAgent),
        createAgentFromRole svc r p cp = .ok a → a.role = r := by
  refine ⟨?_, ?_, ?_⟩
  · cases cp <;> rfl
  · cases cp <;> rfl
  · intro r a h
    exact (createAgentFromRole_ok svc r p cp a h).1

/-- A successfully constructed partner persona for the C8/C9 witnesses. -/
def agentC8 : FamilyMemberAgent :=
  (createAgentFromRole svcOk FamilyRole.partner {} none).toOption.getD agentPartnerW

/-- Witness for C8: concrete rejection of both unregistered tags, and a
concrete successful instantiation that keeps its requested role. -/
theorem invalid_role_rejected_witness :
    createAgentFromRole svcOk FamilyRole.sibling {} none = .error SysError.invalidRole
    ∧ createAgentFromRole svcOk FamilyRole.pet {} none = .error SysError.invalidRole
    ∧ agentC8.role = FamilyRole.partner :=
  ⟨(invalid_role_rejected svcOk {} none).1,
   (invalid_role_rejected svcOk {} none).2.1,
   (invalid_role_rejected svcOk {} none).2.2 FamilyRole.partner agentC8 rfl⟩

/-- Claim C9: every persona, immediately after instantiation and before any
response has been generated for it, has `current_emotion = "neutral"` — the
`role_system.py` constructor sets it explicitly and the `family_agent.py`
dataclass default is never overridden by a constructor. -/
theorem fresh_agent_emotion_neutral :
    (∀ (svc : GenService) (role : FamilyRole) (p : Profile)
        (cp : Option ParamsDict) (a : FamilyMemberAgent),
      createAgentFromRole svc role p cp = .ok a → a.current_emotion = "neutral")
    ∧ (∀ (c : ParamsDict) (p : Profile),
        (generateChildFA c p).current_emotion = "neutral")
    ∧ (∀ p : Profile, (generateGrandfatherFA p).current_emotion = "neutral")
    ∧ (∀ p : Profile, (generateGrandmotherFA p).current_emotion = "neutral") :=
  ⟨fun svc role p cp a h => (createAgentFromRole_ok svc role p cp a h).2,
   fun _ _ => rfl, fun _ => rfl, fun _ => rfl⟩

/-- A successfully constructed grandmother persona for the C9 witness. -/
def agentC9 : FamilyMemberAgent :=
  (createAgentFromRole svcOk FamilyRole.grandmother {} none).toOption.getD agentPartnerW

/-- Witness for C9 at a concrete instantiation. -/
theorem fresh_agent_emotion_neutral_witness :
    agentC9.current_emotion = "neutral" :=
  fresh_agent_emotion_neutral.1 svcOk FamilyRole.grandmother {} none agentC9 rfl

/-- The roster's role sequence dictated by `_determine_family_structure`. -/
def rolesShape (p : Profile) : List FamilyRole :=
  (if p.partner_info.isSome then [FamilyRole.partner] else [])
  ++ p.children_info.map (fun _ => FamilyRole.child)
  ++ (if p.age.getD 30 > 25 then [FamilyRole.grandfather, FamilyRole.grandmother] else [])

theorem determineFamilyStructure_roles (p : Profile) :
    (determineFamilyStructure p).map (fun rc => rc.role) = rolesShape p := by
  rw [determineFamilyStructure, rolesShape, List.map_append, List.map_append]
  congr 1
  · congr 1
    · cases p.partner_info <;> rfl
    · rw [List.map_map]; rfl
  · split <;> rfl

theorem createAll_roles (svc : GenService) (p : Profile) :
    ∀ (l : List RoleConfig) (out : List FamilyMemberAgent),
      createAll svc p l = .ok out →
      out.map (fun a => a.role) = l.map (fun rc => rc.role) := by
  intro l
  induction l with
  | nil =>
    intro out h
    rw [createAll] at h
    simp only [Except.ok.injEq] at h
    rw [← h]; rfl
  | cons rc rest ih =>
    intro out h
    rw [createAll] at h
    cases h1 : createAgentFromRole svc rc.role p rc.custom_params with
    | error e => simp only [h1] at h; exact Except.noConfusion h
    | ok a =>
      simp only [h1] at h
      cases h2 : createAll svc p rest with
      | error e => simp only [h2] at h; exact Except.noConfusion h
      | ok as =>
        simp only [h2, Except.ok.injEq] at h
        rw [← h, List.map_cons, List.map_cons, ih as h2,
          (createAgentFromRole_ok svc rc.role p rc.custom_params a h1).1]

/-- `configure_family` as the manager-state update it performs: the previous
roster is discarded (`self.active_agents = []`) and fully replaced. -/
def configureFamilyState (svc : GenService) (p : Profile) (st : ChatState) :
    Except SysError ChatState :=
  match configureFamily svc p with
  | .error e => .error e
  | .ok ags => .ok { st with activeAgents := ags }

/-- Claim C10: after configuring a family for a profile the roster consists,
in insertion order and nothing else, of the partner (iff partner info), one
child per children entry in list order, then grandfather and grandmother (iff
age > 25); any previous roster is fully replaced regardless of its contents;
and this insertion order is the tie-break order the stable priority sort
preserves (within every rank the scheduled order lists the roster's personas
of that rank in roster order). -/
theorem configure_family_roster (svc : GenService) (p : Profile)
    (roster : List FamilyMemberAgent)
    (h : configureFamily svc p = .ok roster) :
    roster.map (fun a => a.role) = rolesShape p
    ∧ (∀ st : ChatState,
        configureFamilyState svc p st = .ok { st with activeAgents := roster })
    ∧ ∀ (userMessage : String) (r : Nat),
        (sortAgentsByPriority userMessage roster).filter
          (fun a => priorityKey (analyzeMessageContent userMessage) a == r)
        = roster.filter
          (fun a => priorityKey (analyzeMessageContent userMessage) a == r) := by
  refine ⟨?_, ?_, ?_⟩
  · rw [← determineFamilyStructure_roles p]
    exact createAll_roles svc p (determineFamilyStructure p) roster h
  · intro st
    rw [configureFamilyState, h]
  · intro userMessage r
    rw [sortAgentsByPriority_eq]
    exact filter_key_stableSortByKey _ _ _

/-- The spec's Scenario A profile: age 28, partner 美咲 (26), one 5-year-old
male child. -/
def profileA : Profile where
  age := some 28
  partner_info := some { name := some "美咲", age := some 26 }
  children_info := [{ age := some 5, gender := some "male" }]

/-- The roster configured for Scenario A. -/
def rosterA : List FamilyMemberAgent :=
  (configureFamily svcOk profileA).toOption.getD []

/-- Witness for C10 at Scenario A: four personas in the order partner, child,
grandfather, grandmother. -/
theorem configure_family_roster_witness :
    rosterA.map (fun a => a.role)
      = [FamilyRole.partner, FamilyRole.child,
         FamilyRole.grandfather, FamilyRole.grandmother]
    ∧ configureFamilyState svcOk profileA chatSt1
        = .ok { chatSt1 with activeAgents := rosterA } :=
  ⟨((configure_family_roster svcOk profileA rosterA rfl).1).trans (by rfl),
   (configure_family_roster svcOk profileA rosterA rfl).2.1 chatSt1⟩
